import Mathlib

/-!
Verification of the toolchain-orchestration core of the text-driven Arduino
generator (`autoArduinoCoding.py`).  The Python class
`TextDrivenArduinoSystem` is shallowly embedded: external effects (the
Gemini repair collaborator, the `arduino-cli` subprocess calls and the
serial-port enumeration) are supplied as explicit oracle values, and the
functions additionally return a trace of the external commands they issue
so that temporal claims (ordering of detect / compile / upload, counts of
build attempts and repair round-trips) can be stated.
-/

namespace ArduinoGen

/-! ## String helpers (Python `str.lower`, `str.upper`, substring `in`) -/

/-- `s.lower()` on a character list (ASCII case folding, as used by the
identifier heuristics, which are all ASCII). -/
def lowerChars (l : List Char) : List Char := l.map Char.toLower

/-- `s.upper()` on a character list. -/
def upperChars (l : List Char) : List Char := l.map Char.toUpper

/-- Python `str.lower()`. -/
def lowerStr (s : String) : String := String.mk (lowerChars s.toList)

/-- Python `str.upper()`. -/
def upperStr (s : String) : String := String.mk (upperChars s.toList)

/-- Does `p` occur as a prefix of `c`? -/
def hasPrefixChars : List Char → List Char → Bool
  | [], _ => true
  | _ :: _, [] => false
  | p :: ps, c :: cs => p == c && hasPrefixChars ps cs

/-- Does `pat` occur as a contiguous sublist of `l`? -/
def hasSubChars (pat : List Char) : List Char → Bool
  | [] => hasPrefixChars pat []
  | c :: cs => hasPrefixChars pat (c :: cs) || hasSubChars pat cs

/-- Python substring test `pat in s`. -/
def strContains (s pat : String) : Bool := hasSubChars pat.toList s.toList

/-- Python `str(x)` for an optional string: `None` prints as `"None"`. -/
def pyStr : Option String → String
  | none => "None"
  | some s => s

/-- Python truthiness of an optional integer (`None` and `0` are falsy). -/
def pyTruthyNat : Option Nat → Bool
  | none => false
  | some n => n != 0

/-! ## Hexadecimal rendering (Python `f"{v:04X}"`) -/

/-- One uppercase hexadecimal digit character for `d < 16`. -/
def hexDigitUpper (d : Nat) : Char :=
  if d < 10 then Char.ofNat (48 + d) else Char.ofNat (55 + d)

/-- Uppercase hexadecimal digits of `n`, most significant first.  The fuel
argument is a structural bound on the number of digits; `n + 1` always
suffices since a number has at most `n + 1` hex digits. -/
def hexDigitsUpperAux : Nat → Nat → List Char
  | 0, _ => []
  | fuel + 1, n =>
    if n < 16 then [hexDigitUpper n]
    else hexDigitsUpperAux fuel (n / 16) ++ [hexDigitUpper (n % 16)]

/-- Uppercase hexadecimal digits of `n`. -/
def hexDigitsUpper (n : Nat) : List Char := hexDigitsUpperAux (n + 1) n

/-- Character list of Python `f"{n:04X}"`: uppercase hex, zero-padded to a
minimum width of 4. -/
def hexUpper4Chars (n : Nat) : List Char :=
  let ds := hexDigitsUpper n
  List.replicate (4 - ds.length) '0' ++ ds

/-- Python `f"{n:04X}"`. -/
def hexUpper4 (n : Nat) : String := String.mk (hexUpper4Chars n)

/-! ## Device Classifier (`detect_arduino_devices`) -/

/-- One enumerated serial port as reported by
`serial.tools.list_ports.comports()`: device name, optional description and
manufacturer, optional vendor and product ids. -/
structure PortInfo where
  device : String
  description : Option String
  manufacturer : Option String
  vid : Option Nat
  pid : Option Nat
deriving DecidableEq

/-- One entry of the list returned by `detect_arduino_devices`. -/
structure DeviceEntry where
  port : String
  description : Option String
  manufacturer : Option String
  vid_pid : String
  is_arduino : Bool
deriving DecidableEq

/-- The fixed identifier list of vendor/chipset names. -/
def arduino_identifiers : List String :=
  ["Arduino", "CH340", "CP210x", "FTDI", "USB-SERIAL", "Seeeduino", "XIAO", "ESP32"]

/-- The fixed vendor-id allow list. -/
def arduino_vid_pids : List String :=
  ["2341", "1A86", "10C4", "0403", "2886", "303A"]

/-- The per-port body of the loop in `detect_arduino_devices`, translated
with the same sequential flag updates as the source (`is_arduino = False`,
then two independent `if` statements each setting it to `True`). -/
def classifyPort (p : PortInfo) : DeviceEntry :=
  let is_arduino := false
  let is_arduino :=
    if arduino_identifiers.any (fun identifier =>
        hasSubChars (lowerChars identifier.toList) (lowerChars (pyStr p.description).toList)
        || hasSubChars (lowerChars identifier.toList) (lowerChars (pyStr p.manufacturer).toList))
    then true else is_arduino
  let is_arduino :=
    if pyTruthyNat p.vid
        && arduino_vid_pids.contains (upperStr (hexUpper4 (p.vid.getD 0)))
    then true else is_arduino
  { port := p.device
    description := p.description
    manufacturer := p.manufacturer
    vid_pid :=
      if pyTruthyNat p.vid && pyTruthyNat p.pid then
        hexUpper4 (p.vid.getD 0) ++ ":" ++ hexUpper4 (p.pid.getD 0)
      else "N/A"
    is_arduino := is_arduino }

/-- `detect_arduino_devices`, over the list of ports reported by the
enumeration facility (the `except` branch that turns an enumeration failure
into `[]` is outside this pure model). -/
def detect_arduino_devices (ports : List PortInfo) : List DeviceEntry :=
  ports.map classifyPort

/-! ## Spec-side classifier (from the words of the specification) -/

/-- Case-insensitive string equality, by comparing case-normalised forms. -/
def eqIgnoreCase (a b : String) : Bool := upperStr a == upperStr b

/-- Case-insensitive substring match of `needle` against `hay`. -/
def containsIgnoreCase (hay needle : String) : Bool :=
  hasSubChars (lowerChars needle.toList) (lowerChars hay.toList)

/-- Spec rule (a): a case-insensitive substring match of some name in the
fixed identifier list against the description or manufacturer field. -/
def specSubstrMatch (p : PortInfo) : Bool :=
  arduino_identifiers.any fun name =>
    containsIgnoreCase (pyStr p.description) name
    || containsIgnoreCase (pyStr p.manufacturer) name

/-- Spec rule (b): the vendor id, rendered as 4-digit hex, matches some
entry of the fixed allow-list case-insensitively. -/
def specVidMatch (p : PortInfo) : Bool :=
  match p.vid with
  | none => false
  | some v => arduino_vid_pids.any fun a => eqIgnoreCase (hexUpper4 v) a

/-- The classification the specification describes: the logical OR of the
substring rule and the vendor-id rule. -/
def likelyTargetSpec (p : PortInfo) : Bool := specSubstrMatch p || specVidMatch p

/-! ## Environment Provisioner (`setup_cli_environment`) -/

/-- The mutable per-process state of `TextDrivenArduinoSystem` that the
embedded functions read and update: the resolved CLI path
(`arduino_cli_path`, `none` when no toolchain was found) and the
`_cli_env_setup_done` flag. -/
structure SysState where
  cliPath : Option String
  envSetupDone : Bool
deriving DecidableEq

/-- Python whitespace class `\s` (the characters matched by `re`). -/
def pyIsSpace (c : Char) : Bool :=
  c == ' ' || c == '\t' || c == '\n' || c == '\r' || c == '\x0b' || c == '\x0c'

/-- If `p` is a prefix of `cs`, the remainder of `cs`; otherwise `none`. -/
def dropPrefixChars : List Char → List Char → Option (List Char)
  | [], cs => some cs
  | _ :: _, [] => none
  | p :: ps, c :: cs => if p == c then dropPrefixChars ps cs else none

/-- Attempt to match the regular expression
`#include\s*<([^>]+)\.h>` at the start of `cs`, returning the captured
library name and the remainder after the match. -/
def matchIncludeAt (cs : List Char) : Option (String × List Char) :=
  match dropPrefixChars ("#include".toList) cs with
  | none => none
  | some rest1 =>
    match rest1.dropWhile pyIsSpace with
    | '<' :: rest3 =>
      let content := rest3.takeWhile (fun c => c ≠ '>')
      match rest3.dropWhile (fun c => c ≠ '>') with
      | '>' :: rest4 =>
        if 3 ≤ content.length && content.drop (content.length - 2) == ['.', 'h'] then
          some (String.mk (content.take (content.length - 2)), rest4)
        else none
      | _ => none
    | _ => none

/-- Left-to-right non-overlapping scan for the include pattern, as
`re.findall` performs it: on a failed match the scan advances one
character, on a successful match it resumes after the match.  The fuel is
a structural bound; the initial character count suffices since every step
consumes at least one character. -/
def scanIncludesAux : Nat → List Char → List String
  | 0, _ => []
  | _ + 1, [] => []
  | fuel + 1, c :: rest =>
    match matchIncludeAt (c :: rest) with
    | some (lib, remaining) => lib :: scanIncludesAux fuel remaining
    | none => scanIncludesAux fuel rest

/-- `re.findall(r'#include\s*<([^>]+)\.h>', code)`. -/
def scanIncludes (code : String) : List String :=
  scanIncludesAux code.toList.length code.toList

/-- The library list inferred from the source text: the include scan plus
the special-case servo heuristic (`"Servo" not in required_libs and
"Servo.h" not in code and "myServo" in code` appends `"Servo"`). -/
def requiredLibsOf (code : String) : List String :=
  let required_libs := scanIncludes code
  if !(required_libs.contains "Servo")
      && !(strContains code "Servo.h")
      && strContains code "myServo"
  then required_libs ++ ["Servo"]
  else required_libs

/-- Python `s.split(sep)` for a one-character separator, on character
lists (structural, so that concrete runs reduce in the kernel). -/
def splitOnCharsAux (sep : Char) : List Char → List Char → List (List Char)
  | [], acc => [acc.reverse]
  | c :: cs, acc =>
    if c == sep then acc.reverse :: splitOnCharsAux sep cs []
    else splitOnCharsAux sep cs (c :: acc)

/-- Python `s.split(sep)` for a one-character separator. -/
def pySplit (s : String) (sep : Char) : List String :=
  (splitOnCharsAux sep s.toList []).map String.mk

/-- Python `sep.join(parts)`. -/
def pyJoin (sep : String) : List String → String
  | [] => ""
  | [x] => x
  | x :: xs => x ++ sep ++ pyJoin sep xs

/-- The platform-core identifier: the first two colon-separated segments
of the fully-qualified board name (`":".join(fqbn.split(":")[:2])`). -/
def coreOf (fqbn : String) : String :=
  pyJoin ":" ((pySplit fqbn ':').take 2)

/-- The `lib install` commands issued for the inferred libraries.  Python
iterates over `set(required_libs)`, whose order is unspecified; the model
deduplicates keeping first occurrences.  Names containing `Adafruit` are
wrapped in double quotes. -/
def libInstallCmds (libs : List String) : List (List String) :=
  if libs.isEmpty then []
  else (libs.eraseDups).map fun lib =>
    ["lib", "install", if strContains lib "Adafruit" then "\"" ++ lib ++ "\"" else lib]

/-- `setup_cli_environment(code, fqbn)`: returns the updated state and the
list of CLI commands issued (each command is the argument list passed to
`_run_cli_command`).  If the flag is already set or no toolchain is
available it returns immediately without issuing anything. -/
def setup_cli_environment (st : SysState) (code fqbn : String) :
    SysState × List (List String) :=
  if st.envSetupDone || st.cliPath.isNone then (st, [])
  else
    ({ st with envSetupDone := true },
      [["core", "update-index"], ["core", "install", coreOf fqbn]]
        ++ libInstallCmds (requiredLibsOf code))

/-! ## Repair Loop (`validate_and_fix_code`) -/

/-- The dict produced by the generation collaborator, restricted to the
two keys the core reads (`arduino_code`, `wiring_instructions`); a missing
key is `none` (Python `dict.get`). -/
structure GenResult where
  arduino_code : Option String
  wiring_instructions : Option String
deriving DecidableEq

/-- The outcome of one subprocess invocation: exit status and the fully
captured output streams. -/
structure CompileRes where
  returncode : Int
  stdout : String
  stderr : String
deriving DecidableEq

/-- The outcome of one repair round-trip to the collaborator:
`_call_gemini_api` returned `None`; or it returned text that
`_extract_code_from_json` could not parse; or a parsed dict. -/
inductive RepairOutcome where
  | noResponse
  | parseFailed
  | parsed (r : GenResult)
deriving DecidableEq

/-- The external world of the repair loop: the result of the `k`-th compile
of a given source text, and the collaborator response to the `k`-th repair
prompt (which embeds the failing source and the captured stderr). -/
structure VOracle where
  compile : Nat → String → CompileRes
  repair : Nat → String → String → RepairOutcome

/-- Trace of a `validate_and_fix_code` run: the provisioning commands
issued, the source text passed to each compile invocation in order, and
the number of repair round-trips sent to the collaborator. -/
structure VTrace where
  setupCmds : List (List String)
  compiles : List String
  repairs : Nat
deriving DecidableEq

/-- The `for attempt in range(3)` loop of `validate_and_fix_code`.  The
fuel is the number of remaining iterations (initially 3); `attempt` is the
Python loop counter.  Returns the `(bool, dict)` pair together with the
compile sources and the repair round-trip count. -/
def fixLoop (o : VOracle) : Nat → Nat → String → GenResult →
    (Bool × GenResult) × List String × Nat
  | 0, _, _, g => ((false, g), [], 0)
  | fuel + 1, attempt, code, g =>
    let res := o.compile attempt code
    if res.returncode == 0 then
      ((true, { g with arduino_code := some code }), [code], 0)
    else if attempt == 2 then
      ((false, g), [code], 0)
    else
      match o.repair attempt code res.stderr with
      | .noResponse => ((false, g), [code], 1)
      | .parseFailed => ((false, g), [code], 1)
      | .parsed fixed_result =>
        match fixed_result.arduino_code with
        | some newCode =>
          let rest := fixLoop o fuel (attempt + 1) newCode fixed_result
          ((rest.1.1, rest.1.2), code :: rest.2.1, 1 + rest.2.2)
        | none => ((false, g), [code], 1)

/-- `validate_and_fix_code(generation_result, fqbn)`: returns the updated
state, the `(bool, dict)` pair the Python function returns, and the trace
of external interactions.  With no toolchain the artifact is returned
unvalidated at once; otherwise the environment is provisioned and the
bounded compile/repair loop runs. -/
def validate_and_fix_code (st : SysState) (o : VOracle) (g : GenResult)
    (fqbn : String) : SysState × (Bool × GenResult) × VTrace :=
  if st.cliPath.isNone then
    (st, (true, g), ⟨[], [], 0⟩)
  else
    let code := g.arduino_code.getD ""
    let setupRes := setup_cli_environment st code fqbn
    let r := fixLoop o 3 0 code g
    (setupRes.1, r.1, ⟨setupRes.2, r.2.1, r.2.2⟩)

/-! ## Deploy Pipeline (`deploy_to_arduino`) -/

/-- The dict returned by `deploy_to_arduino`, restricted to the keys the
return sites populate; a key absent from a given return site is `none`. -/
structure DeployResponse where
  success : Bool
  error : Option String := none
  suggestion : Option String := none
  details : Option String := none
  message : Option String := none
  port : Option String := none
  output : Option String := none
deriving DecidableEq

/-- One externally visible step of the deploy pipeline. -/
inductive Event where
  | cmd (args : List String)
  | detect
  | compileCall
  | uploadCall (port : String)
deriving DecidableEq

/-- The external world of one deploy run: the enumerated ports, the result
of the compile step and the result of the upload step for a given port. -/
structure DeployOracle where
  ports : List PortInfo
  compile : CompileRes
  upload : String → CompileRes

/-- The compile-then-upload tail of `deploy_to_arduino`, once a concrete
port has been chosen. -/
def deployCompileUpload (o : DeployOracle) (port : String) :
    DeployResponse × List Event :=
  if o.compile.returncode != 0 then
    ({ success := false, error := some "部署前編譯失敗",
       details := some o.compile.stderr }, [Event.compileCall])
  else
    let u := o.upload port
    if u.returncode != 0 then
      ({ success := false, error := some "上傳失敗", details := some u.stderr },
        [Event.compileCall, Event.uploadCall port])
    else
      ({ success := true, message := some "程式碼已成功部署！",
         port := some port, output := some u.stdout },
        [Event.compileCall, Event.uploadCall port])

/-- `deploy_to_arduino(code, port, fqbn)`: returns the updated state, the
response dict and the trace of external steps in program order.  With no
toolchain the pipeline short-circuits; with selector `"auto"` the device
classifier runs and the first likely candidate is taken. -/
def deploy_to_arduino (st : SysState) (o : DeployOracle)
    (code port fqbn : String) : SysState × DeployResponse × List Event :=
  if st.cliPath.isNone then
    (st, { success := false, error := some "Arduino CLI 未安裝，無法部署" }, [])
  else
    let setupRes := setup_cli_environment st code fqbn
    let ev0 := setupRes.2.map Event.cmd
    if port == "auto" then
      let devices := detect_arduino_devices o.ports
      let arduino_ports := (devices.filter (fun d => d.is_arduino)).map (fun d => d.port)
      match arduino_ports with
      | [] =>
        (setupRes.1,
          { success := false, error := some "未找到任何 Arduino 設備",
            suggestion := some "請檢查 USB 連接或驅動程式。" },
          ev0 ++ [Event.detect])
      | chosen :: _ =>
        let r := deployCompileUpload o chosen
        (setupRes.1, r.1, ev0 ++ [Event.detect] ++ r.2)
    else
      let r := deployCompileUpload o port
      (setupRes.1, r.1, ev0 ++ r.2)

/-! ## Lemmas about the hexadecimal rendering -/

/-- The characters that can appear in an uppercase hexadecimal rendering. -/
def hexAlphabet : List Char :=
  ['0', '1', '2', '3', '4', '5', '6', '7', '8', '9', 'A', 'B', 'C', 'D', 'E', 'F']

theorem hexDigitUpper_mem {d : Nat} (h : d < 16) : hexDigitUpper d ∈ hexAlphabet := by
  interval_cases d <;> decide

theorem hexDigitsUpperAux_mem :
    ∀ fuel n, ∀ c ∈ hexDigitsUpperAux fuel n, c ∈ hexAlphabet := by
  intro fuel
  induction fuel with
  | zero => intro n c hc; simp [hexDigitsUpperAux] at hc
  | succ f ih =>
    intro n c hc
    simp only [hexDigitsUpperAux] at hc
    by_cases h : n < 16
    · rw [if_pos h] at hc
      simp at hc
      subst hc
      exact hexDigitUpper_mem h
    · rw [if_neg h] at hc
      rcases List.mem_append.mp hc with h1 | h2
      · exact ih _ _ h1
      · simp at h2
        subst h2
        exact hexDigitUpper_mem (Nat.mod_lt _ (by omega))

theorem hexUpper4Chars_mem {n : Nat} : ∀ c ∈ hexUpper4Chars n, c ∈ hexAlphabet := by
  intro c hc
  simp only [hexUpper4Chars] at hc
  rcases List.mem_append.mp hc with h1 | h2
  · have := List.eq_of_mem_replicate h1
    subst this
    decide
  · exact hexDigitsUpperAux_mem _ _ _ h2

theorem map_id_of_fixed {α : Type} (f : α → α) :
    ∀ l : List α, (∀ c ∈ l, f c = c) → l.map f = l
  | [], _ => rfl
  | a :: l, h => by
    simp only [List.map_cons, h a (by simp)]
    rw [map_id_of_fixed f l (fun c hc => h c (by simp [hc]))]

theorem upperStr_hexUpper4 (n : Nat) : upperStr (hexUpper4 n) = hexUpper4 n := by
  show String.mk (upperChars (hexUpper4Chars n)) = String.mk (hexUpper4Chars n)
  congr 1
  exact map_id_of_fixed _ _ (fun c hc => by
    have hmem := hexUpper4Chars_mem c hc
    fin_cases hmem <;> decide)

/-- The vendor-id test as the source writes it (truthiness of `port.vid`,
then exact membership of the uppercased 4-digit rendering) agrees with the
case-insensitive allow-list match described by the specification. -/
theorem vid_code_eq_spec (p : PortInfo) :
    (pyTruthyNat p.vid
      && arduino_vid_pids.contains (upperStr (hexUpper4 (p.vid.getD 0))))
      = specVidMatch p := by
  cases hv : p.vid with
  | none => simp [pyTruthyNat, specVidMatch, hv]
  | some v =>
    by_cases h0 : v = 0
    · subst h0
      simp only [hv, pyTruthyNat, specVidMatch]
      decide
    · simp only [hv, pyTruthyNat, specVidMatch, Option.getD]
      have hne : (v != 0) = true := by simpa using h0
      rw [hne, Bool.true_and]
      simp only [upperStr_hexUpper4]
      simp only [arduino_vid_pids, eqIgnoreCase, List.any_cons, List.any_nil,
        upperStr_hexUpper4,
        show upperStr "2341" = "2341" from by decide,
        show upperStr "1A86" = "1A86" from by decide,
        show upperStr "10C4" = "10C4" from by decide,
        show upperStr "0403" = "0403" from by decide,
        show upperStr "2886" = "2886" from by decide,
        show upperStr "303A" = "303A" from by decide]
      simp only [List.contains, List.elem]
      cases hexUpper4 v == "2341" <;> cases hexUpper4 v == "1A86" <;>
        cases hexUpper4 v == "10C4" <;> cases hexUpper4 v == "0403" <;>
        cases hexUpper4 v == "2886" <;> cases hexUpper4 v == "303A" <;> rfl

/-- A Boolean identity matching the two sequential flag-setting `if`
statements of the source. -/
theorem if_or (a b : Bool) :
    (if b then true else if a then true else false) = (a || b) := by
  cases a <;> cases b <;> rfl

/-- The sequential flag updates of the source compute exactly the
disjunction of the two rules stated by the specification. -/
theorem classify_is_spec (p : PortInfo) :
    (classifyPort p).is_arduino = likelyTargetSpec p := by
  rw [likelyTargetSpec, ← vid_code_eq_spec p]
  unfold classifyPort
  dsimp only
  rw [if_or]
  rfl

/-! ## Claims about the Device Classifier -/

/-- C6: for every enumerated port, `is_arduino` equals the logical OR of
the case-insensitive identifier-substring rule and the case-insensitive
vendor-id allow-list rule; the output has one entry per enumerated port in
enumeration order carrying nothing beyond the per-port fields (in
particular no ranking beyond the boolean flag). -/
theorem claim_C6_classifier_or_of_rules (ports : List PortInfo) :
    (detect_arduino_devices ports).length = ports.length
    ∧ (detect_arduino_devices ports).map DeviceEntry.port = ports.map PortInfo.device
    ∧ (detect_arduino_devices ports).map DeviceEntry.is_arduino
        = ports.map likelyTargetSpec := by
  refine ⟨by simp [detect_arduino_devices], ?_, ?_⟩
  · simp only [detect_arduino_devices, List.map_map]
    congr 1
  · simp only [detect_arduino_devices, List.map_map]
    congr 1
    funext p
    exact classify_is_spec p

/-- C9: a port whose vendor id is absent or zero is never marked by the
vendor-id rule — its classification equals the substring rule alone — and
its `vid_pid` field is the literal string `"N/A"`. -/
theorem claim_C9_falsy_vid (ports : List PortInfo) (p : PortInfo) (hp : p ∈ ports)
    (h : p.vid = none ∨ p.vid = some 0) :
    classifyPort p ∈ detect_arduino_devices ports
    ∧ (classifyPort p).is_arduino = specSubstrMatch p
    ∧ (classifyPort p).vid_pid = "N/A" := by
  refine ⟨List.mem_map_of_mem classifyPort hp, ?_, ?_⟩
  · rw [classify_is_spec p, likelyTargetSpec]
    have : specVidMatch p = false := by
      rcases h with h | h
      · simp [specVidMatch, h]
      · simp only [specVidMatch, h]
        decide
    simp [this]
  · have : pyTruthyNat p.vid = false := by
      rcases h with h | h <;> simp [pyTruthyNat, h]
    simp [classifyPort, this]

/-- A concrete port with an absent vendor id but a matching description. -/
def exPortNoVid : PortInfo :=
  { device := "COM7", description := some "USB-SERIAL CH340",
    manufacturer := none, vid := none, pid := some 5 }

/-- C9 witness. -/
theorem claim_C9_falsy_vid_witness :
    (classifyPort exPortNoVid).is_arduino = specSubstrMatch exPortNoVid
    ∧ (classifyPort exPortNoVid).vid_pid = "N/A"
    ∧ (classifyPort exPortNoVid).is_arduino = true := by
  have h := claim_C9_falsy_vid [exPortNoVid] exPortNoVid (by simp) (Or.inl rfl)
  exact ⟨h.2.1, h.2.2, by decide⟩

/-! ## Lemmas about the repair loop -/

/-- The loop performs at most `fuel` compile attempts. -/
theorem fixLoop_compiles_le (o : VOracle) :
    ∀ fuel attempt code g, (fixLoop o fuel attempt code g).2.1.length ≤ fuel := by
  intro fuel
  induction fuel with
  | zero => intro attempt code g; simp [fixLoop]
  | succ f ih =>
    intro attempt code g
    simp only [fixLoop]
    split
    · simp
    · split
      · simp
      · cases hrep : o.repair attempt code (o.compile attempt code).stderr with
        | noResponse => simp
        | parseFailed => simp
        | parsed r =>
          dsimp only
          cases hc : r.arduino_code with
          | none => simp
          | some nc =>
            dsimp only
            simp only [List.length_cons]
            have := ih (attempt + 1) nc r
            omega

/-- Unfolding step: a successful compile ends the loop with the current
source written back into the artifact. -/
theorem fixLoop_step_success (o : VOracle) (fuel attempt : Nat) (code : String)
    (g : GenResult) (hrc : (o.compile attempt code).returncode = 0) :
    fixLoop o (fuel + 1) attempt code g
      = ((true, { g with arduino_code := some code }), [code], 0) := by
  simp [fixLoop, hrc]

/-- Unfolding step: a failed compile on the final attempt ends the loop
with the current artifact and no further repair round-trip. -/
theorem fixLoop_step_fail_last (o : VOracle) (fuel : Nat) (code : String)
    (g : GenResult) (hrc : (o.compile 2 code).returncode ≠ 0) :
    fixLoop o (fuel + 1) 2 code g = ((false, g), [code], 0) := by
  simp [fixLoop, hrc]

/-- Unfolding step: a failed compile on a non-final attempt followed by a
well-formed repair response replaces the artifact wholesale with the
response and continues. -/
theorem fixLoop_step_repair (o : VOracle) (fuel attempt : Nat) (code : String)
    (g r : GenResult) (newCode : String)
    (hrc : (o.compile attempt code).returncode ≠ 0)
    (hatt : attempt ≠ 2)
    (hrep : o.repair attempt code (o.compile attempt code).stderr = .parsed r)
    (hc : r.arduino_code = some newCode) :
    fixLoop o (fuel + 1) attempt code g
      = ((fixLoop o fuel (attempt + 1) newCode r).1,
          code :: (fixLoop o fuel (attempt + 1) newCode r).2.1,
          1 + (fixLoop o fuel (attempt + 1) newCode r).2.2) := by
  simp [fixLoop, hrc, hatt, hrep, hc]

/-- Unfolding step: a failed compile on a non-final attempt followed by a
missing or malformed repair response aborts at once with the current
artifact, after one repair round-trip. -/
theorem fixLoop_step_bad_repair (o : VOracle) (fuel attempt : Nat) (code : String)
    (g : GenResult)
    (hrc : (o.compile attempt code).returncode ≠ 0)
    (hatt : attempt ≠ 2)
    (hrep : o.repair attempt code (o.compile attempt code).stderr = .noResponse
      ∨ o.repair attempt code (o.compile attempt code).stderr = .parseFailed
      ∨ ∃ r, o.repair attempt code (o.compile attempt code).stderr = .parsed r
          ∧ r.arduino_code = none) :
    fixLoop o (fuel + 1) attempt code g = ((false, g), [code], 1) := by
  rcases hrep with h | h | ⟨r, h, hc⟩
  · simp [fixLoop, hrc, hatt, h]
  · simp [fixLoop, hrc, hatt, h]
  · simp [fixLoop, hrc, hatt, h, hc]

/-- Whenever the loop reports success, the returned artifact's source text
is the last source passed to a compile call, and that call succeeded. -/
theorem fixLoop_success_last (o : VOracle) :
    ∀ fuel attempt code g,
      (fixLoop o fuel attempt code g).1.1 = true →
      ∃ pre last,
        (fixLoop o fuel attempt code g).2.1 = pre ++ [last]
        ∧ (fixLoop o fuel attempt code g).1.2.arduino_code = some last
        ∧ (o.compile (attempt + pre.length) last).returncode = 0 := by
  intro fuel
  induction fuel with
  | zero => intro attempt code g h; simp [fixLoop] at h
  | succ f ih =>
    intro attempt code g h
    simp only [fixLoop] at h ⊢
    by_cases hrc : ((o.compile attempt code).returncode == 0) = true
    · rw [if_pos hrc] at h ⊢
      refine ⟨[], code, by simp, by simp, ?_⟩
      simpa using hrc
    · rw [if_neg hrc] at h ⊢
      by_cases hatt : ((attempt == 2) = true)
      · rw [if_pos hatt] at h
        simp at h
      · rw [if_neg hatt] at h ⊢
        cases hrep : o.repair attempt code (o.compile attempt code).stderr with
        | noResponse => rw [hrep] at h; simp at h
        | parseFailed => rw [hrep] at h; simp at h
        | parsed r =>
          rw [hrep] at h
          dsimp only at h ⊢
          cases hc : r.arduino_code with
          | none => rw [hc] at h; simp at h
          | some nc =>
            rw [hc] at h
            dsimp only at h ⊢
            obtain ⟨pre, last, hcompiles, hcode, hrc2⟩ := ih (attempt + 1) nc r h
            refine ⟨code :: pre, last, by simp [hcompiles], hcode, ?_⟩
            have harith : attempt + (code :: pre).length = attempt + 1 + pre.length := by
              simp [List.length_cons]
              omega
            rw [harith]
            exact hrc2

/-- Full evaluation of `validate_and_fix_code` on the scenario where the
first two compiles fail, both repair round-trips return well-formed
responses, and the third compile succeeds. -/
theorem validate_two_repairs_success (st : SysState) (o : VOracle)
    (g r1 r2 : GenResult) (fqbn path c0 c1 c2 : String)
    (hcli : st.cliPath = some path)
    (hc0 : c0 = g.arduino_code.getD "")
    (h0 : (o.compile 0 c0).returncode ≠ 0)
    (hr0 : o.repair 0 c0 (o.compile 0 c0).stderr = .parsed r1)
    (h1c : r1.arduino_code = some c1)
    (h1 : (o.compile 1 c1).returncode ≠ 0)
    (hr1 : o.repair 1 c1 (o.compile 1 c1).stderr = .parsed r2)
    (h2c : r2.arduino_code = some c2)
    (h2 : (o.compile 2 c2).returncode = 0) :
    validate_and_fix_code st o g fqbn
      = ((setup_cli_environment st c0 fqbn).1,
          (true, { r2 with arduino_code := some c2 }),
          ⟨(setup_cli_environment st c0 fqbn).2, [c0, c1, c2], 2⟩) := by
  have e2 : fixLoop o 1 2 c2 r2
      = ((true, { r2 with arduino_code := some c2 }), [c2], 0) := by
    have h := fixLoop_step_success o 0 2 c2 r2 h2
    norm_num at h
    exact h
  have e1 : fixLoop o 2 1 c1 r1
      = ((true, { r2 with arduino_code := some c2 }), [c1, c2], 1) := by
    have h := fixLoop_step_repair o 1 1 c1 r1 r2 c2 h1 (by decide) hr1 h2c
    norm_num at h
    rw [e2] at h
    simpa using h
  have e0 : fixLoop o 3 0 c0 g
      = ((true, { r2 with arduino_code := some c2 }), [c0, c1, c2], 2) := by
    have h := fixLoop_step_repair o 2 0 c0 g r1 c1 h0 (by decide) hr0 h1c
    norm_num at h
    rw [e1] at h
    simpa using h
  have hnone : st.cliPath.isNone = false := by simp [hcli]
  simp only [validate_and_fix_code, hnone, Bool.false_eq_true, if_false, ← hc0, e0]

/-- Full evaluation of `validate_and_fix_code` on the scenario where all
three compiles fail and both repair round-trips return well-formed
responses. -/
theorem validate_two_repairs_exhausted (st : SysState) (o : VOracle)
    (g r1 r2 : GenResult) (fqbn path c0 c1 c2 : String)
    (hcli : st.cliPath = some path)
    (hc0 : c0 = g.arduino_code.getD "")
    (h0 : (o.compile 0 c0).returncode ≠ 0)
    (hr0 : o.repair 0 c0 (o.compile 0 c0).stderr = .parsed r1)
    (h1c : r1.arduino_code = some c1)
    (h1 : (o.compile 1 c1).returncode ≠ 0)
    (hr1 : o.repair 1 c1 (o.compile 1 c1).stderr = .parsed r2)
    (h2c : r2.arduino_code = some c2)
    (h2 : (o.compile 2 c2).returncode ≠ 0) :
    validate_and_fix_code st o g fqbn
      = ((setup_cli_environment st c0 fqbn).1,
          (false, r2),
          ⟨(setup_cli_environment st c0 fqbn).2, [c0, c1, c2], 2⟩) := by
  have e2 : fixLoop o 1 2 c2 r2 = ((false, r2), [c2], 0) := by
    have h := fixLoop_step_fail_last o 0 c2 r2 h2
    norm_num at h
    exact h
  have e1 : fixLoop o 2 1 c1 r1 = ((false, r2), [c1, c2], 1) := by
    have h := fixLoop_step_repair o 1 1 c1 r1 r2 c2 h1 (by decide) hr1 h2c
    norm_num at h
    rw [e2] at h
    simpa using h
  have e0 : fixLoop o 3 0 c0 g = ((false, r2), [c0, c1, c2], 2) := by
    have h := fixLoop_step_repair o 2 0 c0 g r1 c1 h0 (by decide) hr0 h1c
    norm_num at h
    rw [e1] at h
    simpa using h
  have hnone : st.cliPath.isNone = false := by simp [hcli]
  simp only [validate_and_fix_code, hnone, Bool.false_eq_true, if_false, ← hc0, e0]

/-! ## Concrete fixtures used by witnesses and counterexamples -/

/-- A state with a resolved toolchain and provisioning already done. -/
def exStReady : SysState := ⟨some "arduino-cli", true⟩

/-- A state with no toolchain found. -/
def exStNoCli : SysState := ⟨none, false⟩

/-- A freshly generated artifact. -/
def exGen : GenResult := ⟨some "codeA", some "docA"⟩

/-- Repair collaborator used by the fixtures: round 0 answers with source
`codeB` and doc `docB`, later rounds with `codeC` and `docC`. -/
def exRepair (attempt : Nat) (_code _err : String) : RepairOutcome :=
  if attempt == 0 then .parsed ⟨some "codeB", some "docB"⟩
  else .parsed ⟨some "codeC", some "docC"⟩

/-- Oracle on which the first two compiles fail (stderr `E1`, `E2`) and the
third succeeds. -/
def exOracleTwoFix : VOracle :=
  { compile := fun attempt _ =>
      if attempt == 0 then ⟨1, "", "E1"⟩
      else if attempt == 1 then ⟨1, "", "E2"⟩
      else ⟨0, "ok", ""⟩
    repair := exRepair }

/-- Oracle on which all three compiles fail (stderr `E1`, `E2`, `E3`). -/
def exOracleAllFail : VOracle :=
  { compile := fun attempt _ =>
      if attempt == 0 then ⟨1, "", "E1"⟩
      else if attempt == 1 then ⟨1, "", "E2"⟩
      else ⟨1, "", "E3"⟩
    repair := exRepair }

/-- Oracle on which the first compile succeeds. -/
def exOracleFirstOk : VOracle :=
  { compile := fun _ _ => ⟨0, "ok", ""⟩
    repair := exRepair }

/-! ## Claims about the Repair Loop -/

/-- C1: the Build Runner is invoked at most 3 times in every run of
`validate_and_fix_code`; and on every run whose compiles fail on attempts
1 and 2 and succeed on attempt 3 (with well-formed repair responses),
exactly two repair round-trips are performed and the loop returns success
with the attempt-3 source text. -/
theorem claim_C1_attempt_budget (st : SysState) (o : VOracle)
    (g r1 r2 : GenResult) (fqbn path c0 c1 c2 : String)
    (hcli : st.cliPath = some path)
    (hc0 : c0 = g.arduino_code.getD "")
    (h0 : (o.compile 0 c0).returncode ≠ 0)
    (hr0 : o.repair 0 c0 (o.compile 0 c0).stderr = .parsed r1)
    (h1c : r1.arduino_code = some c1)
    (h1 : (o.compile 1 c1).returncode ≠ 0)
    (hr1 : o.repair 1 c1 (o.compile 1 c1).stderr = .parsed r2)
    (h2c : r2.arduino_code = some c2)
    (h2 : (o.compile 2 c2).returncode = 0) :
    ((validate_and_fix_code st o g fqbn).2.2.compiles = [c0, c1, c2]
      ∧ (validate_and_fix_code st o g fqbn).2.2.repairs = 2
      ∧ (validate_and_fix_code st o g fqbn).2.1
          = (true, { r2 with arduino_code := some c2 }))
    ∧ ∀ (st' : SysState) (o' : VOracle) (g' : GenResult) (fqbn' : String),
        (validate_and_fix_code st' o' g' fqbn').2.2.compiles.length ≤ 3 := by
  constructor
  · rw [validate_two_repairs_success st o g r1 r2 fqbn path c0 c1 c2
      hcli hc0 h0 hr0 h1c h1 hr1 h2c h2]
    exact ⟨rfl, rfl, rfl⟩
  · intro st' o' g' fqbn'
    by_cases hn : st'.cliPath.isNone = true
    · simp [validate_and_fix_code, hn]
    · simp only [validate_and_fix_code, hn, Bool.false_eq_true, if_false]
      exact fixLoop_compiles_le o' 3 0 _ _

/-- C1 witness. -/
theorem claim_C1_attempt_budget_witness :
    (validate_and_fix_code exStReady exOracleTwoFix exGen
        "Seeeduino:samd:seeed_XIAO_m0").2.2.compiles = ["codeA", "codeB", "codeC"]
    ∧ (validate_and_fix_code exStReady exOracleTwoFix exGen
        "Seeeduino:samd:seeed_XIAO_m0").2.2.repairs = 2
    ∧ (validate_and_fix_code exStReady exOracleTwoFix exGen
        "Seeeduino:samd:seeed_XIAO_m0").2.1
        = (true, ⟨some "codeC", some "docC"⟩) := by
  have h := claim_C1_attempt_budget exStReady exOracleTwoFix exGen
    ⟨some "codeB", some "docB"⟩ ⟨some "codeC", some "docC"⟩
    "Seeeduino:samd:seeed_XIAO_m0" "arduino-cli" "codeA" "codeB" "codeC"
    rfl rfl (by decide) rfl rfl (by decide) rfl rfl (by decide)
  exact ⟨h.1.1, h.1.2.1, h.1.2.2⟩

/-- C2 counterexample: on a run failing all 3 attempts the function
returns only the pair `(False, artifact)`; the attempt-3 stderr (`E3`)
appears nowhere in the returned value, refuting the claim that the failure
indication carries the last BuildResult diagnostics. -/
theorem claim_C2_counterexample :
    (validate_and_fix_code exStReady exOracleAllFail exGen
        "Seeeduino:samd:seeed_XIAO_m0").2
      = ((false, ⟨some "codeC", some "docC"⟩),
          ⟨[], ["codeA", "codeB", "codeC"], 2⟩)
    ∧ (exOracleAllFail.compile 2 "codeC").stderr = "E3"
    ∧ strContains "codeC" "E3" = false
    ∧ strContains "docC" "E3" = false := by decide

/-- C2 (amended): on every run failing all 3 attempts with well-formed
repair responses, the loop returns a failure indication carrying the
attempt-3 (last) artifact — never an earlier attempt's artifact — but the
last BuildResult is not part of the returned value. -/
theorem claim_C2_exhausted_last_artifact (st : SysState) (o : VOracle)
    (g r1 r2 : GenResult) (fqbn path c0 c1 c2 : String)
    (hcli : st.cliPath = some path)
    (hc0 : c0 = g.arduino_code.getD "")
    (h0 : (o.compile 0 c0).returncode ≠ 0)
    (hr0 : o.repair 0 c0 (o.compile 0 c0).stderr = .parsed r1)
    (h1c : r1.arduino_code = some c1)
    (h1 : (o.compile 1 c1).returncode ≠ 0)
    (hr1 : o.repair 1 c1 (o.compile 1 c1).stderr = .parsed r2)
    (h2c : r2.arduino_code = some c2)
    (h2 : (o.compile 2 c2).returncode ≠ 0) :
    (validate_and_fix_code st o g fqbn).2.1 = (false, r2)
    ∧ (validate_and_fix_code st o g fqbn).2.2.compiles = [c0, c1, c2] := by
  rw [validate_two_repairs_exhausted st o g r1 r2 fqbn path c0 c1 c2
    hcli hc0 h0 hr0 h1c h1 hr1 h2c h2]
  exact ⟨rfl, rfl⟩

/-- C2 (amended) witness. -/
theorem claim_C2_exhausted_last_artifact_witness :
    (validate_and_fix_code exStReady exOracleAllFail exGen
        "Seeeduino:samd:seeed_XIAO_m0").2.1
      = (false, ⟨some "codeC", some "docC"⟩)
    ∧ (validate_and_fix_code exStReady exOracleAllFail exGen
        "Seeeduino:samd:seeed_XIAO_m0").2.2.compiles
      = ["codeA", "codeB", "codeC"] := by
  exact claim_C2_exhausted_last_artifact exStReady exOracleAllFail exGen
    ⟨some "codeB", some "docB"⟩ ⟨some "codeC", some "docC"⟩
    "Seeeduino:samd:seeed_XIAO_m0" "arduino-cli" "codeA" "codeB" "codeC"
    rfl rfl (by decide) rfl rfl (by decide) rfl rfl (by decide)

/-- C4: whenever the loop returns success (with a toolchain present), the
returned artifact's source text is exactly the source passed to the final
compile call, and that call succeeded. -/
theorem claim_C4_lockstep (st : SysState) (o : VOracle) (g : GenResult)
    (fqbn path : String)
    (hcli : st.cliPath = some path)
    (hsucc : (validate_and_fix_code st o g fqbn).2.1.1 = true) :
    ∃ pre last,
      (validate_and_fix_code st o g fqbn).2.2.compiles = pre ++ [last]
      ∧ (validate_and_fix_code st o g fqbn).2.1.2.arduino_code = some last
      ∧ (o.compile pre.length last).returncode = 0 := by
  have hnone : st.cliPath.isNone = false := by simp [hcli]
  simp only [validate_and_fix_code, hnone, Bool.false_eq_true, if_false] at hsucc ⊢
  obtain ⟨pre, last, h1, h2, h3⟩ :=
    fixLoop_success_last o 3 0 (g.arduino_code.getD "") g hsucc
  exact ⟨pre, last, h1, h2, by simpa using h3⟩

/-- C4 witness. -/
theorem claim_C4_lockstep_witness :
    ∃ pre last,
      (validate_and_fix_code exStReady exOracleFirstOk exGen
          "Seeeduino:samd:seeed_XIAO_m0").2.2.compiles = pre ++ [last]
      ∧ (validate_and_fix_code exStReady exOracleFirstOk exGen
          "Seeeduino:samd:seeed_XIAO_m0").2.1.2.arduino_code = some last
      ∧ (exOracleFirstOk.compile pre.length last).returncode = 0 := by
  exact claim_C4_lockstep exStReady exOracleFirstOk exGen
    "Seeeduino:samd:seeed_XIAO_m0" "arduino-cli" rfl (by decide)

/-- C8 counterexample: the no-toolchain return value carries no
unvalidated marking.  A run with no toolchain returns `(true, artifact)`
with the raw artifact — bit-for-bit identical to the value returned by a
validated run on the same artifact whose first compile succeeds — so
nothing in the returned value distinguishes an unvalidated artifact from a
validated one. -/
theorem claim_C8_counterexample :
    (validate_and_fix_code exStNoCli exOracleAllFail exGen
        "Seeeduino:samd:seeed_XIAO_m0").2.1 = (true, exGen)
    ∧ (validate_and_fix_code exStReady exOracleFirstOk exGen
        "Seeeduino:samd:seeed_XIAO_m0").2.1 = (true, exGen)
    ∧ (validate_and_fix_code exStNoCli exOracleAllFail exGen
          "Seeeduino:samd:seeed_XIAO_m0").2.1
      = (validate_and_fix_code exStReady exOracleFirstOk exGen
          "Seeeduino:samd:seeed_XIAO_m0").2.1 := by decide

/-- C8 (amended): with no toolchain available, the validation step accepts
the artifact unvalidated and returns success immediately: the artifact is
returned unchanged and no provisioning command, compile attempt or repair
round-trip occurs — but no unvalidated tag is attached; the returned value
has the same form as a validated success. -/
theorem claim_C8_no_toolchain (st : SysState) (o : VOracle) (g : GenResult)
    (fqbn : String) (h : st.cliPath = none) :
    validate_and_fix_code st o g fqbn = (st, (true, g), ⟨[], [], 0⟩) := by
  simp [validate_and_fix_code, h]

/-- C8 witness. -/
theorem claim_C8_no_toolchain_witness :
    validate_and_fix_code exStNoCli exOracleAllFail exGen
        "Seeeduino:samd:seeed_XIAO_m0"
      = (exStNoCli, (true, exGen), ⟨[], [], 0⟩) :=
  claim_C8_no_toolchain exStNoCli exOracleAllFail exGen
    "Seeeduino:samd:seeed_XIAO_m0" rfl

/-- C10: after well-formed repair round-trips the artifact is replaced
wholesale with the collaborator's response, so the auxiliary doc returned
on eventual success is the one from the last repair response — with no
hypothesis relating it to the original doc (the code performs no such
check). -/
theorem claim_C10_doc_replaced (st : SysState) (o : VOracle)
    (g r1 r2 : GenResult) (fqbn path c0 c1 c2 : String)
    (hcli : st.cliPath = some path)
    (hc0 : c0 = g.arduino_code.getD "")
    (h0 : (o.compile 0 c0).returncode ≠ 0)
    (hr0 : o.repair 0 c0 (o.compile 0 c0).stderr = .parsed r1)
    (h1c : r1.arduino_code = some c1)
    (h1 : (o.compile 1 c1).returncode ≠ 0)
    (hr1 : o.repair 1 c1 (o.compile 1 c1).stderr = .parsed r2)
    (h2c : r2.arduino_code = some c2)
    (h2 : (o.compile 2 c2).returncode = 0) :
    (validate_and_fix_code st o g fqbn).2.1.2
      = { r2 with arduino_code := some c2 }
    ∧ (validate_and_fix_code st o g fqbn).2.1.2.wiring_instructions
      = r2.wiring_instructions := by
  rw [validate_two_repairs_success st o g r1 r2 fqbn path c0 c1 c2
    hcli hc0 h0 hr0 h1c h1 hr1 h2c h2]
  exact ⟨rfl, rfl⟩

/-- C10 witness: the original doc `docA` is replaced by the last repair
response's doc `docC`. -/
theorem claim_C10_doc_replaced_witness :
    (validate_and_fix_code exStReady exOracleTwoFix exGen
        "Seeeduino:samd:seeed_XIAO_m0").2.1.2
      = ⟨some "codeC", some "docC"⟩
    ∧ (validate_and_fix_code exStReady exOracleTwoFix exGen
        "Seeeduino:samd:seeed_XIAO_m0").2.1.2.wiring_instructions
      = some "docC"
    ∧ exGen.wiring_instructions = some "docA" := by
  have h := claim_C10_doc_replaced exStReady exOracleTwoFix exGen
    ⟨some "codeB", some "docB"⟩ ⟨some "codeC", some "docC"⟩
    "Seeeduino:samd:seeed_XIAO_m0" "arduino-cli" "codeA" "codeB" "codeC"
    rfl rfl (by decide) rfl rfl (by decide) rfl rfl (by decide)
  exact ⟨h.1, h.2, rfl⟩

/-! ## Claim about the Environment Provisioner -/

/-- C5: with a toolchain available, after one call to the provisioner the
ready flag is set; the installation commands (index refresh, core install,
library installs) are issued only by that first call (when the flag was
not already set), and every later call — with any source text and board
identifier — returns at once issuing no command and leaving the state
unchanged. -/
theorem claim_C5_provision_idempotent (st : SysState) (code1 fqbn1 : String)
    (h : st.cliPath.isSome = true) :
    (setup_cli_environment st code1 fqbn1).1.envSetupDone = true
    ∧ (st.envSetupDone = false →
        (setup_cli_environment st code1 fqbn1).2
          = [["core", "update-index"], ["core", "install", coreOf fqbn1]]
            ++ libInstallCmds (requiredLibsOf code1))
    ∧ ∀ code2 fqbn2,
        setup_cli_environment (setup_cli_environment st code1 fqbn1).1 code2 fqbn2
          = ((setup_cli_environment st code1 fqbn1).1, []) := by
  have hnone : st.cliPath.isNone = false := by
    cases hc : st.cliPath with
    | none => rw [hc] at h; simp at h
    | some v => simp
  cases hdone : st.envSetupDone with
  | true =>
    refine ⟨?_, ?_, ?_⟩
    · simp [setup_cli_environment, hdone]
    · intro hfalse
      exact absurd hfalse (by simp)
    · intro code2 fqbn2
      simp [setup_cli_environment, hdone]
  | false =>
    refine ⟨?_, ?_, ?_⟩
    · simp [setup_cli_environment, hdone, hnone]
    · intro _
      simp [setup_cli_environment, hdone, hnone]
    · intro code2 fqbn2
      simp [setup_cli_environment, hdone, hnone]

/-- C5 witness. -/
theorem claim_C5_provision_idempotent_witness :
    (setup_cli_environment ⟨some "arduino-cli", false⟩ "#include <Servo.h>"
        "Seeeduino:samd:seeed_XIAO_m0").1.envSetupDone = true
    ∧ (setup_cli_environment ⟨some "arduino-cli", false⟩ "#include <Servo.h>"
        "Seeeduino:samd:seeed_XIAO_m0").2
      = [["core", "update-index"], ["core", "install", "Seeeduino:samd"],
          ["lib", "install", "Servo"]]
    ∧ setup_cli_environment
        (setup_cli_environment ⟨some "arduino-cli", false⟩ "#include <Servo.h>"
          "Seeeduino:samd:seeed_XIAO_m0").1
        "#include <WiFi.h>" "arduino:avr:uno"
      = ((setup_cli_environment ⟨some "arduino-cli", false⟩ "#include <Servo.h>"
          "Seeeduino:samd:seeed_XIAO_m0").1, []) := by
  have h := claim_C5_provision_idempotent ⟨some "arduino-cli", false⟩
    "#include <Servo.h>" "Seeeduino:samd:seeed_XIAO_m0" rfl
  refine ⟨h.1, ?_, h.2.2 "#include <WiFi.h>" "arduino:avr:uno"⟩
  rw [h.2.1 rfl]
  decide

/-! ## Claims about the Deploy Pipeline -/

/-- No upload event hides among provisioning command events. -/
theorem uploadCall_not_mem_cmdEvents (s : String) (cmds : List (List String)) :
    Event.uploadCall s ∉ cmds.map Event.cmd := by
  intro h
  obtain ⟨args, _, habs⟩ := List.mem_map.mp h
  exact Event.noConfusion habs

/-- C7: an auto deploy in which the classifier marks no port as a likely
target returns the device-not-found error with its remediation
suggestion, and the upload subcommand is never invoked. -/
theorem claim_C7_auto_no_device (st : SysState) (o : DeployOracle)
    (code fqbn path : String)
    (hcli : st.cliPath = some path)
    (hnone : (detect_arduino_devices o.ports).filter (fun d => d.is_arduino) = []) :
    (deploy_to_arduino st o code "auto" fqbn).2.1
      = { success := false, error := some "未找到任何 Arduino 設備",
          suggestion := some "請檢查 USB 連接或驅動程式。" }
    ∧ ∀ s, Event.uploadCall s ∉ (deploy_to_arduino st o code "auto" fqbn).2.2 := by
  have hb : st.cliPath.isNone = false := by simp [hcli]
  simp only [deploy_to_arduino, hb, Bool.false_eq_true, if_false, hnone,
    List.map_nil, beq_self_eq_true, if_true]
  refine ⟨trivial, ?_⟩
  intro s hmem
  rcases List.mem_append.mp hmem with h1 | h2
  · exact uploadCall_not_mem_cmdEvents s _ h1
  · simp at h2

/-- A concrete state and oracle: one attached Arduino-like port. -/
def exPortArduino : PortInfo :=
  { device := "COM3", description := some "Arduino Uno",
    manufacturer := some "Arduino LLC", vid := some 0x2341, pid := some 0x43 }

/-- Deploy oracle whose build step fails with stderr `boom`. -/
def exDeployFailBuild : DeployOracle :=
  { ports := [exPortArduino], compile := ⟨1, "", "boom"⟩,
    upload := fun _ => ⟨0, "up-ok", ""⟩ }

/-- Deploy oracle enumerating no ports at all. -/
def exDeployNoPorts : DeployOracle :=
  { ports := [], compile := ⟨0, "", ""⟩, upload := fun _ => ⟨0, "", ""⟩ }

/-- C7 witness. -/
theorem claim_C7_auto_no_device_witness :
    (deploy_to_arduino exStReady exDeployNoPorts "void setup(){}" "auto"
        "Seeeduino:samd:seeed_XIAO_m0").2.1
      = { success := false, error := some "未找到任何 Arduino 設備",
          suggestion := some "請檢查 USB 連接或驅動程式。" }
    ∧ ∀ s, Event.uploadCall s ∉ (deploy_to_arduino exStReady exDeployNoPorts
        "void setup(){}" "auto" "Seeeduino:samd:seeed_XIAO_m0").2.2 :=
  claim_C7_auto_no_device exStReady exDeployNoPorts "void setup(){}"
    "Seeeduino:samd:seeed_XIAO_m0" "arduino-cli" rfl rfl

/-- C3 counterexample: a concrete auto deploy whose build fails, yet the
device auto-selection step (the `detect` event) has already run — first in
the trace, before the compile — refuting the claim that auto-selection
occurs only in the transfer phase after a successful build. -/
theorem claim_C3_counterexample :
    (deploy_to_arduino exStReady exDeployFailBuild "void setup(){}" "auto"
        "Seeeduino:samd:seeed_XIAO_m0").2.2
      = [Event.detect, Event.compileCall]
    ∧ (deploy_to_arduino exStReady exDeployFailBuild "void setup(){}" "auto"
        "Seeeduino:samd:seeed_XIAO_m0").2.1.success = false
    ∧ (deploy_to_arduino exStReady exDeployFailBuild "void setup(){}" "auto"
        "Seeeduino:samd:seeed_XIAO_m0").2.1.error = some "部署前編譯失敗" := by
  decide

/-- C3 (amended): compile strictly precedes upload and a build failure
returns a build-phase error carrying the captured diagnostics with no
upload ever attempted; device auto-selection, however, runs before the
build phase (right after provisioning), not after a successful build. -/
theorem claim_C3_build_precedes_transfer (st : SysState) (o : DeployOracle)
    (code fqbn path chosen : String) (restPorts : List String)
    (hcli : st.cliPath = some path)
    (hsel : ((detect_arduino_devices o.ports).filter (fun d => d.is_arduino)).map
        (fun d => d.port) = chosen :: restPorts)
    (hfail : o.compile.returncode ≠ 0) :
    (deploy_to_arduino st o code "auto" fqbn).2.1
      = { success := false, error := some "部署前編譯失敗",
          details := some o.compile.stderr }
    ∧ (deploy_to_arduino st o code "auto" fqbn).2.2
        = (setup_cli_environment st code fqbn).2.map Event.cmd
          ++ [Event.detect, Event.compileCall]
    ∧ ∀ s, Event.uploadCall s ∉ (deploy_to_arduino st o code "auto" fqbn).2.2 := by
  have hb : st.cliPath.isNone = false := by simp [hcli]
  have hrc : (o.compile.returncode != 0) = true := by simpa using hfail
  simp only [deploy_to_arduino, hb, Bool.false_eq_true, if_false, hsel,
    beq_self_eq_true, if_true, deployCompileUpload, hrc]
  refine ⟨trivial, by simp, ?_⟩
  intro s hmem
  rcases List.mem_append.mp hmem with h1 | h2
  · rcases List.mem_append.mp h1 with h3 | h4
    · exact uploadCall_not_mem_cmdEvents s _ h3
    · simp at h4
  · simp at h2

/-- C3 (amended) witness. -/
theorem claim_C3_build_precedes_transfer_witness :
    (deploy_to_arduino exStReady exDeployFailBuild "void setup(){}" "auto"
        "Seeeduino:samd:seeed_XIAO_m0").2.1
      = { success := false, error := some "部署前編譯失敗",
          details := some "boom" }
    ∧ (deploy_to_arduino exStReady exDeployFailBuild "void setup(){}" "auto"
        "Seeeduino:samd:seeed_XIAO_m0").2.2
      = [Event.detect, Event.compileCall]
    ∧ ∀ s, Event.uploadCall s ∉ (deploy_to_arduino exStReady exDeployFailBuild
        "void setup(){}" "auto" "Seeeduino:samd:seeed_XIAO_m0").2.2 := by
  have h := claim_C3_build_precedes_transfer exStReady exDeployFailBuild
    "void setup(){}" "Seeeduino:samd:seeed_XIAO_m0" "arduino-cli" "COM3" []
    rfl (by decide) (by decide)
  refine ⟨h.1, ?_, h.2.2⟩
  rw [h.2.1]
  decide

end ArduinoGen
